import Mathlib

/-!
# Esewa payment signature generation: embedding and verification

Shallow embedding of `src/PaymentIntegration_Esewa/Esewa/views.py` and
`src/PaymentIntegration_Esewa/Esewa/secret.py`.  The code formats a canonical
message `total_amount=...,transaction_uuid=...,product_code=...`, computes its
HMAC-SHA256 digest under a hardcoded secret, and base64-encodes the digest.

The Python library calls (`str.encode`, `hmac.new(..., digestmod=hashlib.sha256)`,
`base64.b64encode`) are embedded by the standard algorithms they implement:
UTF-8 (RFC 3629), SHA-256 (FIPS 180-4), HMAC (RFC 2104), base64 (RFC 4648).
Known-answer theorems below check the embedded primitives against published
test vectors.

All arithmetic is on `Nat` with explicit `% 2^32` where the source's 32-bit
words overflow.
-/

set_option maxRecDepth 20000

namespace Esewa

/-- 2^32, the modulus for SHA-256 word arithmetic. -/
def M32 : Nat := 4294967296

/-- Right rotation of a 32-bit word by `n` places. -/
def rotr (n x : Nat) : Nat := (x >>> n) ||| ((x <<< (32 - n)) % M32)

/-- SHA-256 `Ch` function. -/
def ch (x y z : Nat) : Nat := (x &&& y) ^^^ ((M32 - 1 - x) &&& z)

/-- SHA-256 `Maj` function. -/
def maj (x y z : Nat) : Nat := (x &&& y) ^^^ (x &&& z) ^^^ (y &&& z)

/-- SHA-256 big sigma 0. -/
def bsig0 (x : Nat) : Nat := rotr 2 x ^^^ rotr 13 x ^^^ rotr 22 x

/-- SHA-256 big sigma 1. -/
def bsig1 (x : Nat) : Nat := rotr 6 x ^^^ rotr 11 x ^^^ rotr 25 x

/-- SHA-256 small sigma 0. -/
def ssig0 (x : Nat) : Nat := rotr 7 x ^^^ rotr 18 x ^^^ (x >>> 3)

/-- SHA-256 small sigma 1. -/
def ssig1 (x : Nat) : Nat := rotr 17 x ^^^ rotr 19 x ^^^ (x >>> 10)

/-- The 64 SHA-256 round constants (FIPS 180-4), in decimal. -/
def K : List Nat :=
  [1116352408, 1899447441, 3049323471, 3921009573, 961987163, 1508970993,
   2453635748, 2870763221, 3624381080, 310598401, 607225278, 1426881987,
   1925078388, 2162078206, 2614888103, 3248222580, 3835390401, 4022224774,
   264347078, 604807628, 770255983, 1249150122, 1555081692, 1996064986,
   2554220882, 2821834349, 2952996808, 3210313671, 3336571891, 3584528711,
   113926993, 338241895, 666307205, 773529912, 1294757372, 1396182291,
   1695183700, 1986661051, 2177026350, 2456956037, 2730485921, 2820302411,
   3259730800, 3345764771, 3516065817, 3600352804, 4094571909, 275423344,
   430227734, 506948616, 659060556, 883997877, 958139571, 1322822218,
   1537002063, 1747873779, 1955562222, 2024104815, 2227730452, 2361852424,
   2428436474, 2756734187, 3204031479, 3329325298]

/-- The eight 32-bit words of a SHA-256 hash state. -/
structure Hash8 where
  a : Nat
  b : Nat
  c : Nat
  d : Nat
  e : Nat
  f : Nat
  g : Nat
  h : Nat
deriving Repr, DecidableEq

/-- SHA-256 initial hash value (FIPS 180-4), in decimal. -/
def H0 : Hash8 :=
  ⟨1779033703, 3144134277, 1013904242, 2773480762,
   1359893119, 2600822924, 528734635, 1541459225⟩

/-- Big-endian bytes of a 32-bit word. -/
def wordBytes (w : Nat) : List Nat :=
  [w / 16777216 % 256, w / 65536 % 256, w / 256 % 256, w % 256]

/-- Big-endian byte serialisation of the hash state: the 32-byte digest. -/
def stateBytes (s : Hash8) : List Nat :=
  ([s.a, s.b, s.c, s.d, s.e, s.f, s.g, s.h].map wordBytes).flatten

/-- Group a byte list into big-endian 32-bit words (drops an incomplete tail;
inputs here are always a multiple of 4). -/
def toWords : List Nat → List Nat
  | b0 :: b1 :: b2 :: b3 :: rest => (b0 * 16777216 + b1 * 65536 + b2 * 256 + b3) :: toWords rest
  | _ => []

/-- Message-schedule extension step: prepend the next word to the reversed
schedule `acc` (newest word first), `n` words remaining. -/
def extendW (acc : List Nat) : Nat → List Nat
  | 0 => acc.reverse
  | n + 1 =>
      extendW (((ssig1 (acc.getD 1 0) + acc.getD 6 0 + ssig0 (acc.getD 14 0) + acc.getD 15 0) % M32)
        :: acc) n

/-- The 64-word message schedule of a 16-word block. -/
def schedule (block : List Nat) : List Nat := extendW block.reverse 48

/-- One SHA-256 compression round with round constant `k` and schedule word `w`. -/
def roundStep (s : Hash8) (kw : Nat × Nat) : Hash8 :=
  let t1 := (s.h + bsig1 s.e + ch s.e s.f s.g + kw.1 + kw.2) % M32
  let t2 := (bsig0 s.a + maj s.a s.b s.c) % M32
  ⟨(t1 + t2) % M32, s.a, s.b, s.c, (s.d + t1) % M32, s.e, s.f, s.g⟩

/-- Compress one 64-byte block into the running hash state. -/
def compressBlock (s : Hash8) (block : List Nat) : Hash8 :=
  let ws := schedule (toWords block)
  let t := (K.zip ws).foldl roundStep s
  ⟨(s.a + t.a) % M32, (s.b + t.b) % M32, (s.c + t.c) % M32, (s.d + t.d) % M32,
   (s.e + t.e) % M32, (s.f + t.f) % M32, (s.g + t.g) % M32, (s.h + t.h) % M32⟩

/-- Fold the compression function over `fuel` consecutive 64-byte blocks. -/
def sha256Blocks (s : Hash8) (msg : List Nat) : Nat → Hash8
  | 0 => s
  | n + 1 => sha256Blocks (compressBlock s (msg.take 64)) (msg.drop 64) n

/-- SHA-256 padding: append `0x80`, zero bytes to 56 mod 64, and the bit length
as an 8-byte big-endian integer. -/
def padMsg (msg : List Nat) : List Nat :=
  let L := msg.length
  let zeros := (119 - L % 64) % 64
  let bits := L * 8
  msg ++ [128] ++ List.replicate zeros 0 ++
    [bits / 72057594037927936 % 256, bits / 281474976710656 % 256,
     bits / 1099511627776 % 256, bits / 4294967296 % 256,
     bits / 16777216 % 256, bits / 65536 % 256, bits / 256 % 256, bits % 256]

/-- SHA-256 of a byte list: the 32-byte digest. -/
def sha256 (msg : List Nat) : List Nat :=
  let p := padMsg msg
  stateBytes (sha256Blocks H0 p (p.length / 64))

/-- ASCII bytes of a string (used for test vectors and the `b"..."` literal). -/
def asciiBytes (s : String) : List Nat := s.data.map Char.toNat

/-- SHA-256 known-answer test: FIPS 180-4 vector for "abc". -/
theorem sha256_abc :
    sha256 (asciiBytes "abc") =
      [186, 120, 22, 191, 143, 1, 207, 234, 65, 65, 64, 222, 93, 174, 34, 35,
       176, 3, 97, 163, 150, 23, 122, 156, 180, 16, 255, 97, 242, 0, 21, 173] := by
  decide

/-- HMAC-SHA256 (RFC 2104, as implemented by Python's `hmac.new` with
`digestmod=hashlib.sha256`): block size 64; a key longer than the block is
first hashed, then the key is zero-padded to the block size. -/
def hmacSha256 (key msg : List Nat) : List Nat :=
  let k0 := if key.length > 64 then sha256 key else key
  let kp := k0 ++ List.replicate (64 - k0.length) 0
  sha256 ((kp.map fun b => b ^^^ 92) ++ sha256 ((kp.map fun b => b ^^^ 54) ++ msg))

/-- HMAC-SHA256 known-answer test: RFC 4231 test case 2
(key "Jefe", data "what do ya want for nothing?"). -/
theorem hmacSha256_rfc4231_case2 :
    hmacSha256 (asciiBytes "Jefe") (asciiBytes "what do ya want for nothing?") =
      [0x5b, 0xdc, 0xc1, 0x46, 0xbf, 0x60, 0x75, 0x4e, 0x6a, 0x04, 0x24, 0x26,
       0x08, 0x95, 0x75, 0xc7, 0x5a, 0x00, 0x3f, 0x08, 0x9d, 0x27, 0x39, 0x83,
       0x9d, 0xec, 0x58, 0xb9, 0x64, 0xec, 0x38, 0x43] := by
  decide

/-- The base64 alphabet (RFC 4648), as the list of its 64 characters. -/
def b64Alphabet : List Char :=
  "ABCDEFGHIJKLMNOPQRSTUVWXYZabcdefghijklmnopqrstuvwxyz0123456789+/".data

/-- Character for a 6-bit group. -/
def b64Char (n : Nat) : Char := b64Alphabet.getD n 'A'

/-- Base64-encode a byte list into characters, 3 bytes to 4 characters, with
`=` padding on a final 1- or 2-byte group (RFC 4648, as implemented by
Python's `base64.b64encode`). -/
def b64Chunks : List Nat → List Char
  | [] => []
  | [b1] => [b64Char (b1 / 4), b64Char (b1 % 4 * 16), '=', '=']
  | [b1, b2] => [b64Char (b1 / 4), b64Char (b1 % 4 * 16 + b2 / 16), b64Char (b2 % 16 * 4), '=']
  | b1 :: b2 :: b3 :: rest =>
      b64Char (b1 / 4) :: b64Char (b1 % 4 * 16 + b2 / 16) ::
      b64Char (b2 % 16 * 4 + b3 / 64) :: b64Char (b3 % 64) :: b64Chunks rest

/-- Base64 encoding as a string. -/
def base64Encode (bs : List Nat) : String := String.mk (b64Chunks bs)

/-- Base64 known-answer tests: RFC 4648 vectors for "foob", "fooba", "foobar". -/
theorem base64_rfc4648 :
    base64Encode (asciiBytes "foob") = "Zm9vYg==" ∧
    base64Encode (asciiBytes "fooba") = "Zm9vYmE=" ∧
    base64Encode (asciiBytes "foobar") = "Zm9vYmFy" := by
  decide

/-- UTF-8 encoding of a single Unicode scalar value (RFC 3629). -/
def utf8Char (c : Char) : List Nat :=
  let n := c.toNat
  if n < 128 then [n]
  else if n < 2048 then [192 + n / 64, 128 + n % 64]
  else if n < 65536 then [224 + n / 4096, 128 + n / 64 % 64, 128 + n % 64]
  else [240 + n / 262144, 128 + n / 4096 % 64, 128 + n / 64 % 64, 128 + n % 64]

/-- UTF-8 bytes of a string: the semantics of Python's `str.encode()`. -/
def utf8Bytes (s : String) : List Nat := (s.data.map utf8Char).flatten

/-- A code point in the surrogate range, which Python's `str.encode()` rejects
with `UnicodeEncodeError`. -/
def isSurrogate (n : Nat) : Bool := 55296 ≤ n && n < 57344

/-- Fallible encoding, modelling `str.encode()` including its failure branch:
`none` when the string contains a (lone) surrogate code point, otherwise the
UTF-8 bytes. -/
def utf8EncodeChecked (s : String) : Option (List Nat) :=
  if s.data.any fun c => isSurrogate c.toNat then none else some (utf8Bytes s)

/-!
## The source pipeline

`views.py` line 14 (and identically `secret.py` line 11) builds the message by
the f-string
`f'total_amount={total_amount},transaction_uuid={uid},product_code={product_code}'`;
`transaction_uuid` is the `str` form of the `uuid4()` value and is modelled as
a string, `total_amount` as a natural number (its value in the source is 110).
-/

/-- The canonical message string of `views.py` line 14 / `secret.py` line 11. -/
def message (total_amount : Nat) (transaction_uuid product_code : String) : String :=
  "total_amount=" ++ toString total_amount ++ ",transaction_uuid=" ++ transaction_uuid ++
    ",product_code=" ++ product_code

/-- The hardcoded key `b"8gBm/:&EnhH.1/q"` of `views.py` line 16 /
`secret.py` line 13, as its ASCII bytes. -/
def secret : List Nat := asciiBytes "8gBm/:&EnhH.1/q"

/-- The signature pipeline of `views.py` lines 14-20 (whose `print` calls are
commented out), abstracted over the four quantities it reads, as in the spec's
`generate(total_amount, transaction_uuid, product_code, secret)` contract:
format the message, UTF-8 encode it, take the HMAC-SHA256 digest under the
key, and base64-encode the digest.  The standalone script `secret.py` runs the
same value computation but interleaves live `print` calls; it is modelled
separately, prints included, by `scriptRun`. -/
def generate (total_amount : Nat) (transaction_uuid product_code : String)
    (key : List Nat) : String :=
  let m := message total_amount transaction_uuid product_code
  let mBytes := utf8Bytes m
  let digest := hmacSha256 key mBytes
  base64Encode digest

/-- The web handler's signature-generation lines (`views.py` lines 14-20, and
only those: the script's variant in `secret.py` prints and is modelled by
`scriptRun` instead) threaded through an ambient world (any type `σ`, standing
for process state the code could read or write) and a stdout trace.  These
lines are straight-line assignments whose `print` calls are commented out, so
each step consults and changes neither. -/
def generateRun {σ : Type} (total_amount : Nat) (transaction_uuid product_code : String)
    (key : List Nat) (world : σ) (out : List String) : String × σ × List String :=
  let m := message total_amount transaction_uuid product_code
  let mBytes := utf8Bytes m
  let digest := hmacSha256 key mBytes
  let signature := base64Encode digest
  (signature, world, out)

/-- The pipeline with the fallible `str.encode()` modelled explicitly: `none`
exactly when encoding the message raises. -/
def generateChecked (total_amount : Nat) (transaction_uuid product_code : String)
    (key : List Nat) : Option String :=
  (utf8EncodeChecked (message total_amount transaction_uuid product_code)).map
    fun mBytes => base64Encode (hmacSha256 key mBytes)

/-- The context dictionary built by `views.py` lines 23-28. -/
structure Context where
  transaction_uuid : String
  total_amount : Nat
  product_code : String
  signature : String
deriving Repr, DecidableEq

/-- `paymentHandler` of `views.py` lines 8-29, as a function of the string form
`uid` of the `uuid4()` value drawn on line 9 (the randomness is the one input
of the handler; the HTTP request is never read).  Each `let` mirrors one
source line; the result is the context passed to `render`. -/
def paymentHandler (uid : String) : Context :=
  let total_amount := 110
  let transaction_uuid := uid
  let product_code := "EPAYTEST"
  let m := message total_amount uid product_code
  let mBytes := utf8Bytes m
  let digest := hmacSha256 secret mBytes
  let signature := base64Encode digest
  { transaction_uuid := transaction_uuid, total_amount := total_amount,
    product_code := product_code, signature := signature }

/-- The `signature` computed by the standalone script `secret.py` lines 8-17,
as a function of the string form `uid` of its `uuid4()` value; written out
line by line from `secret.py` (the script duplicates the handler's code). -/
def scriptSignature (uid : String) : String :=
  let total_amount := 110
  let product_code := "EPAYTEST"
  let m := "total_amount=" ++ toString total_amount ++ ",transaction_uuid=" ++ uid ++
    ",product_code=" ++ product_code
  let mBytes := utf8Bytes m
  let hmac_sha256 := hmacSha256 (asciiBytes "8gBm/:&EnhH.1/q") mBytes
  base64Encode hmac_sha256

/-!
## The script's stdout

Unlike the handler, the standalone script does print: `secret.py` line 7
prints the uid, line 16 the digest (a `bytes` value, rendered by Python's
`repr`), line 18 the signature.  `print(a, b)` writes `str(a)`, a single
separating space, then `str(b)`.  The following models the `repr` of a
`bytes` value and the script's full run, stdout included.
-/

/-- Lowercase hexadecimal digit. -/
def hexDigit (n : Nat) : Char := "0123456789abcdef".data.getD n '0'

/-- How Python's `bytes.__repr__` renders one byte inside quotes of code
`quote`: backslash and the quote character are backslash-escaped, tab,
newline and carriage return use their mnemonic escapes, other printable
ASCII stands for itself, and everything else becomes `\xhh`. -/
def pyByteEscape (quote b : Nat) : List Char :=
  if b = 92 then ['\\', '\\']
  else if b = quote then ['\\', Char.ofNat quote]
  else if b = 9 then ['\\', 't']
  else if b = 10 then ['\\', 'n']
  else if b = 13 then ['\\', 'r']
  else if 32 ≤ b ∧ b < 127 then [Char.ofNat b]
  else ['\\', 'x', hexDigit (b / 16), hexDigit (b % 16)]

/-- Python's `repr` of a `bytes` value: `b` followed by the quoted escaped
bytes; the quote is a single quote unless the bytes contain one and no double
quote, in which case a double quote is used. -/
def pyBytesRepr (bs : List Nat) : String :=
  let quote := if bs.contains 39 && !(bs.contains 34) then 34 else 39
  String.mk ('b' :: Char.ofNat quote :: (bs.map (pyByteEscape quote)).flatten ++ [Char.ofNat quote])

/-- The full run of the standalone script `secret.py` lines 6-18 as a function
of the drawn uid string: the computed `signature` together with the stdout
lines written by the `print` calls at lines 7, 16 and 18, in order. -/
def scriptRun (uid : String) : String × List String :=
  let total_amount := 110
  let product_code := "EPAYTEST"
  let m := "total_amount=" ++ toString total_amount ++ ",transaction_uuid=" ++ uid ++
    ",product_code=" ++ product_code
  let mBytes := utf8Bytes m
  let digest := hmacSha256 (asciiBytes "8gBm/:&EnhH.1/q") mBytes
  let signature := base64Encode digest
  (signature,
   ["UID: " ++ " " ++ uid,
    "Digest: " ++ " " ++ pyBytesRepr digest,
    "Signature: " ++ " " ++ signature])

/-- Known-vector check: the full pipeline at the spec's scenario
(total_amount=110, the zero UUIDv4 string, product_code "EPAYTEST", the
hardcoded secret) produces the fixture signature, independently computed with
Python's `hmac`/`base64` libraries. -/
theorem generate_known_vector :
    generate 110 "00000000-0000-4000-8000-000000000000" "EPAYTEST" secret =
      "wf57eoj0tRVS50vwciQNA5ihZpX9pzObL3LqlF3zUjg=" := by
  decide

/-!
## Supporting lemmas: digest shape and base64 structure
-/

/-- Every byte produced by `wordBytes` is below 256. -/
theorem wordBytes_lt (w : Nat) : ∀ b ∈ wordBytes w, b < 256 := by
  intro b hb
  simp [wordBytes] at hb
  rcases hb with rfl | rfl | rfl | rfl <;> omega

/-- Every byte of a serialised hash state is below 256. -/
theorem stateBytes_lt (s : Hash8) : ∀ b ∈ stateBytes s, b < 256 := by
  intro b hb
  rw [stateBytes, List.mem_flatten] at hb
  obtain ⟨bs, hbs, hbm⟩ := hb
  rw [List.mem_map] at hbs
  obtain ⟨w, -, rfl⟩ := hbs
  exact wordBytes_lt w b hbm

/-- A SHA-256 digest is always exactly 32 bytes. -/
theorem sha256_length (msg : List Nat) : (sha256 msg).length = 32 := rfl

/-- Every byte of a SHA-256 digest is below 256. -/
theorem sha256_lt (msg : List Nat) : ∀ b ∈ sha256 msg, b < 256 :=
  stateBytes_lt _

/-- An HMAC-SHA256 digest is always exactly 32 bytes. -/
theorem hmacSha256_length (key msg : List Nat) : (hmacSha256 key msg).length = 32 :=
  sha256_length _

/-- Every byte of an HMAC-SHA256 digest is below 256. -/
theorem hmacSha256_lt (key msg : List Nat) : ∀ b ∈ hmacSha256 key msg, b < 256 :=
  sha256_lt _

/-- Membership in the base64 alphabet, as a boolean test. -/
def isB64 (c : Char) : Bool := b64Alphabet.contains c

/-- Every 6-bit group maps to an alphabet character. -/
theorem b64Char_isB64 : ∀ n, n < 64 → isB64 (b64Char n) = true := by decide

/-- Base64 of a byte list whose length is 2 mod 3 (all entries genuine bytes)
is a run of alphabet characters followed by exactly one `=`, of total length
`(length + 2) / 3 * 4`. -/
theorem b64Chunks_split (l : List Nat) (h2 : l.length % 3 = 2) (hb : ∀ b ∈ l, b < 256) :
    ∃ cs, b64Chunks l = cs ++ ['='] ∧ cs.length + 1 = (l.length + 2) / 3 * 4 ∧
      ∀ c ∈ cs, isB64 c = true := by
  induction l using b64Chunks.induct with
  | case1 => simp at h2
  | case2 b1 => simp at h2
  | case3 b1 b2 =>
      have hb1 : b1 < 256 := hb b1 (by simp)
      have hb2 : b2 < 256 := hb b2 (by simp)
      refine ⟨[b64Char (b1 / 4), b64Char (b1 % 4 * 16 + b2 / 16), b64Char (b2 % 16 * 4)],
        rfl, by simp, ?_⟩
      intro c hc
      simp at hc
      rcases hc with rfl | rfl | rfl <;> exact b64Char_isB64 _ (by omega)
  | case4 b1 b2 b3 rest ih =>
      have hb1 : b1 < 256 := hb b1 (by simp)
      have hb2 : b2 < 256 := hb b2 (by simp)
      have hb3 : b3 < 256 := hb b3 (by simp)
      have hr2 : rest.length % 3 = 2 := by
        simp at h2
        omega
      have hbr : ∀ b ∈ rest, b < 256 := fun b hm => hb b (by simp [hm])
      obtain ⟨cs, hcs, hclen, hcmem⟩ := ih hr2 hbr
      refine ⟨b64Char (b1 / 4) :: b64Char (b1 % 4 * 16 + b2 / 16) ::
        b64Char (b2 % 16 * 4 + b3 / 64) :: b64Char (b3 % 64) :: cs, ?_, ?_, ?_⟩
      · simp [b64Chunks, hcs]
      · simp only [List.length_cons]
        omega
      · intro c hc
        simp at hc
        rcases hc with rfl | rfl | rfl | rfl | hc
        · exact b64Char_isB64 _ (by omega)
        · exact b64Char_isB64 _ (by omega)
        · exact b64Char_isB64 _ (by omega)
        · exact b64Char_isB64 _ (by omega)
        · exact hcmem c hc

/-- `str.encode()` never fails on a Lean string: every `Char` is a Unicode
scalar value, so the surrogate branch is unreachable. -/
theorem char_not_surrogate (c : Char) : isSurrogate c.toNat = false := by
  have h := c.valid
  rcases h with h | ⟨h1, h2⟩ <;> simp [isSurrogate, Char.toNat] <;> omega

/-- The checked encoder always succeeds, returning the UTF-8 bytes. -/
theorem utf8EncodeChecked_total (s : String) : utf8EncodeChecked s = some (utf8Bytes s) := by
  rw [utf8EncodeChecked, if_neg]
  simp only [List.any_eq_true, not_exists]
  intro c
  simp [char_not_surrogate c]

/-!
## Claim theorems
-/

/-- C1: for every total_amount, transaction_uuid, product_code and secret, the
generated signature is the standard base64 encoding (with padding) of the
HMAC-SHA256 digest, keyed by the secret, of the UTF-8 bytes of the canonical
message string. -/
theorem generate_is_b64_hmac_of_message (total_amount : Nat)
    (transaction_uuid product_code : String) (key : List Nat) :
    generate total_amount transaction_uuid product_code key =
      base64Encode (hmacSha256 key (utf8Bytes (message total_amount transaction_uuid product_code))) :=
  rfl

/-- C2: the canonical message is exactly
`total_amount=<ta>,transaction_uuid=<tu>,product_code=<pc>` with no added
whitespace, and at the spec's scenario it is the quoted literal string. -/
theorem message_canonical :
    (∀ (total_amount : Nat) (transaction_uuid product_code : String),
      message total_amount transaction_uuid product_code =
        "total_amount=" ++ toString total_amount ++ ",transaction_uuid=" ++ transaction_uuid ++
          ",product_code=" ++ product_code) ∧
    message 110 "00000000-0000-4000-8000-000000000000" "EPAYTEST" =
      "total_amount=110,transaction_uuid=00000000-0000-4000-8000-000000000000,product_code=EPAYTEST" :=
  ⟨fun _ _ _ => rfl, by decide⟩

/-- C3: signature generation is deterministic: two runs on the same
(total_amount, transaction_uuid, product_code, secret), whatever the ambient
world and stdout trace of each run, produce the same signature string. -/
theorem generate_deterministic {σ τ : Type} (total_amount : Nat)
    (transaction_uuid product_code : String) (key : List Nat)
    (w1 : σ) (w2 : τ) (out1 out2 : List String) :
    (generateRun total_amount transaction_uuid product_code key w1 out1).1 =
      (generateRun total_amount transaction_uuid product_code key w2 out2).1 :=
  rfl

/-- C4: for every input tuple the signature is exactly 44 characters, namely
43 base64-alphabet characters followed by exactly one `=` padding character. -/
theorem generate_output_format (total_amount : Nat)
    (transaction_uuid product_code : String) (key : List Nat) :
    (generate total_amount transaction_uuid product_code key).length = 44 ∧
    ∃ cs, (generate total_amount transaction_uuid product_code key).data = cs ++ ['='] ∧
      cs.length = 43 ∧ ∀ c ∈ cs, isB64 c = true := by
  have hlen : (hmacSha256 key (utf8Bytes (message total_amount transaction_uuid product_code))).length = 32 :=
    hmacSha256_length _ _
  obtain ⟨cs, hcs, hclen, hcmem⟩ :=
    b64Chunks_split (hmacSha256 key (utf8Bytes (message total_amount transaction_uuid product_code)))
      (by rw [hlen]) (hmacSha256_lt _ _)
  rw [hlen] at hclen
  refine ⟨?_, cs, ?_, by omega, hcmem⟩
  · show (b64Chunks (hmacSha256 key (utf8Bytes (message total_amount transaction_uuid product_code)))).length = 44
    rw [hcs]
    simp
    omega
  · show b64Chunks (hmacSha256 key (utf8Bytes (message total_amount transaction_uuid product_code))) = cs ++ ['=']
    exact hcs

/-- C6: generation fails only on an encoding failure, and the failure branch
is unreachable: on every well-typed input the checked pipeline returns the
signature rather than an error. -/
theorem generateChecked_never_fails (total_amount : Nat)
    (transaction_uuid product_code : String) (key : List Nat) :
    generateChecked total_amount transaction_uuid product_code key =
      some (generate total_amount transaction_uuid product_code key) := by
  rw [generateChecked, utf8EncodeChecked_total]
  rfl

/-- C7 counterexample: the claim that the signature generation performs no
I/O in any invocation fails on the standalone script.  At the concrete uid
"00000000-0000-4000-8000-000000000000" the script's run writes three stdout
lines — including the digest print of `secret.py` line 16, which sits inside
the signature-generation sequence — so its stdout trace is not empty. -/
theorem script_invocation_prints :
    (scriptRun "00000000-0000-4000-8000-000000000000").2 ≠ [] ∧
    (scriptRun "00000000-0000-4000-8000-000000000000").2 =
      ["UID:  00000000-0000-4000-8000-000000000000",
       "Digest:  b'\\xc1\\xfe\x7bz\\x88\\xf4\\xb5\\x15R\\xe7K\\xf0r$\\r\\x03\\x98\\xa1f\\x95\\xfd\\xa73\\x9b/r\\xea\\x94]\\xf3R8'",
       "Signature:  wf57eoj0tRVS50vwciQNA5ihZpX9pzObL3LqlF3zUjg="] := by
  decide

/-- C7 (amended): the signature-generation core of the web handler
(`views.py` lines 14-20, whose `print` calls are commented out) has no side
effects beyond producing the signature string — it returns the signature with
any ambient world and stdout trace unchanged; the standalone script, by
contrast, prints exactly the uid line, the digest line and the signature line
to stdout in every invocation. -/
theorem handler_core_no_effects {σ : Type} (total_amount : Nat)
    (transaction_uuid product_code : String) (key : List Nat) (w : σ)
    (out : List String) (uid : String) :
    generateRun total_amount transaction_uuid product_code key w out =
      (generate total_amount transaction_uuid product_code key, w, out) ∧
    (scriptRun uid).2 =
      ["UID: " ++ " " ++ uid,
       "Digest: " ++ " " ++ pyBytesRepr (hmacSha256 secret (utf8Bytes (message 110 uid "EPAYTEST"))),
       "Signature: " ++ " " ++ scriptSignature uid] :=
  ⟨rfl, rfl⟩

/-- C9: in every invocation of `paymentHandler`, total_amount is 110,
product_code is "EPAYTEST", the transaction_uuid is exactly the freshly drawn
uid, and the signature is generated under the constant HMAC key
`b"8gBm/:&EnhH.1/q"`; only the uid varies between invocations. -/
theorem paymentHandler_constants (uid : String) :
    (paymentHandler uid).total_amount = 110 ∧
    (paymentHandler uid).product_code = "EPAYTEST" ∧
    (paymentHandler uid).transaction_uuid = uid ∧
    secret = [56, 103, 66, 109, 47, 58, 38, 69, 110, 104, 72, 46, 49, 47, 113] ∧
    (paymentHandler uid).signature = generate 110 uid "EPAYTEST" secret :=
  ⟨rfl, rfl, rfl, by decide, rfl⟩

/-- C10: the standalone script (`secret.py`) and the web handler (`views.py`)
compute the same signature function: at any common transaction_uuid the two
signatures coincide. -/
theorem script_handler_agree (uid : String) :
    scriptSignature uid = (paymentHandler uid).signature :=
  rfl

end Esewa
